import Mathlib

/-!
Verification of the AutoGLM-GUI backend session layer (`src/main.py`).

The file embeds the FastAPI command handlers `init_agent`, `chat`,
`get_status` and `reset_agent` as pure Lean functions over an explicit
server state.  The external `PhoneAgent` collaborator (package
`AutoGL_GUI.phone_agent`, not part of the backend file) is represented by
its contract: construction and `run` are oracles supplied as parameters
(they may fail and may mutate the agent arbitrarily), `step_count` is a
readable counter, and `reset` clears the counter while keeping the
configuration.
-/

namespace AutoGLM

/-- `ModelConfig(base_url, model_name)` passed to the agent constructor. -/
structure ModelConfig where
  base_url : String
  model_name : String
deriving Repr, DecidableEq

/-- `AgentConfig(max_steps, device_id, verbose)` passed to the agent
constructor.  `max_steps` is a Python `int`, hence `Int`. -/
structure AgentConfig where
  max_steps : Int
  device_id : Option String
  verbose : Bool
deriving Repr, DecidableEq

/-- The external `PhoneAgent` object: its two immutable configurations and
its mutable internal step counter (`step_count`). -/
structure PhoneAgent where
  model_config : ModelConfig
  agent_config : AgentConfig
  step_count : Nat
deriving Repr, DecidableEq

/-- Modelled from the spec: `Agent.reset()` "clears step counters/internal
agent state without discarding the Agent object or its configuration"
(the `PhoneAgent` implementation is outside `src/main.py`). -/
def PhoneAgent.reset (a : PhoneAgent) : PhoneAgent :=
  { a with step_count := 0 }

/-- Behaviour of the external constructor `PhoneAgent(model_config,
agent_config)`: it either raises (an exception message) or returns a fresh
agent.  Left abstract because the implementation is outside the backend. -/
def MkOracle : Type :=
  ModelConfig → AgentConfig → Except String PhoneAgent

/-- Behaviour of the external `Agent.run(message)`: the agent object is
mutated in place (first component), and the call either returns a result
string or raises an exception message (second component).  Left abstract
because the implementation is outside the backend. -/
def RunOracle : Type :=
  PhoneAgent → String → PhoneAgent × Except String String

/-- The process-wide mutable state of `main.py`: the global singleton
`agent: PhoneAgent | None = None`. -/
structure ServerState where
  agent : Option PhoneAgent
deriving Repr, DecidableEq

/-- The state at process start: `agent = None`. -/
def initialState : ServerState := ⟨none⟩

/-- Body of `POST /api/init` (pydantic model `InitRequest`), with the
source's default field values. -/
structure InitRequest where
  base_url : String := "http://localhost:8080/v1"
  model_name : String := "autoglm-phone-9b"
  device_id : Option String := none
  max_steps : Int := 100
deriving Repr, DecidableEq

/-- Pydantic decoding of an `/api/init` JSON body: each of the four fields
is optional (`none` = absent from the body) and falls back to the
`InitRequest` default. -/
def InitRequest.fromBody (base_url_field model_name_field : Option String)
    (device_id_field : Option (Option String))
    (max_steps_field : Option Int) : InitRequest :=
  { base_url := base_url_field.getD "http://localhost:8080/v1"
    model_name := model_name_field.getD "autoglm-phone-9b"
    device_id := device_id_field.getD none
    max_steps := max_steps_field.getD 100 }

/-- Body of `POST /api/chat` (pydantic model `ChatRequest`). -/
structure ChatRequest where
  message : String
deriving Repr, DecidableEq

/-- Response model of `POST /api/chat` (`ChatResponse`). -/
structure ChatResponse where
  result : String
  steps : Nat
  success : Bool
deriving Repr, DecidableEq

/-- Response model of `GET /api/status` (`StatusResponse`). -/
structure StatusResponse where
  initialized : Bool
  step_count : Nat
deriving Repr, DecidableEq

/-- The `{"success": ..., "message": ...}` dict returned by `/api/init`
and `/api/reset`. -/
structure SuccessMessage where
  success : Bool
  message : String
deriving Repr, DecidableEq

/-- `fastapi.HTTPException(status_code, detail)`. -/
structure HTTPException where
  status_code : Nat
  detail : String
deriving Repr, DecidableEq

/-- The `ModelConfig` that `init_agent` builds from the request
(lines 59-62 of `main.py`). -/
def initModelConfig (req : InitRequest) : ModelConfig :=
  { base_url := req.base_url, model_name := req.model_name }

/-- The `AgentConfig` that `init_agent` builds from the request
(lines 64-68 of `main.py`): `verbose` is the literal `True`. -/
def initAgentConfig (req : InitRequest) : AgentConfig :=
  { max_steps := req.max_steps, device_id := req.device_id, verbose := true }

/-- Handler of `POST /api/init` (`init_agent` in `main.py`).  The configs
are built, then `PhoneAgent(...)` is constructed; only after a successful
construction is the global `agent` assigned.  A constructor exception
propagates (second component `.error`) and leaves the state unchanged. -/
def init_agent (mk : MkOracle) (st : ServerState) (req : InitRequest) :
    ServerState × Except String SuccessMessage :=
  match mk (initModelConfig req) (initAgentConfig req) with
  | .error e => (st, .error e)
  | .ok a => (⟨some a⟩, .ok ⟨true, "Agent initialized"⟩)

/-- Handler of `POST /api/chat` (`chat` in `main.py`).  With no agent it
raises `HTTPException(400, ...)`.  Otherwise it runs the task inside
`try`: on success it reads `agent.step_count`, calls `agent.reset()` and
returns `(result, steps, True)`; if `run` raises, the `except` branch
returns `(str(e), 0, False)` — note that the mutated agent is kept as the
exception left it, without a reset. -/
def chat (run : RunOracle) (st : ServerState) (req : ChatRequest) :
    ServerState × Except HTTPException ChatResponse :=
  match st.agent with
  | none =>
      (st, .error ⟨400, "Agent not initialized. Call /api/init first."⟩)
  | some a =>
      match run a req.message with
      | (a2, .ok result) =>
          let steps := a2.step_count
          let a3 := a2.reset
          (⟨some a3⟩, .ok ⟨result, steps, true⟩)
      | (a2, .error e) =>
          (⟨some a2⟩, .ok ⟨e, 0, false⟩)

/-- Handler of `GET /api/status` (`get_status` in `main.py`): a read-only
snapshot, `initialized = agent is not None` and
`step_count = agent.step_count if agent else 0`. -/
def get_status (st : ServerState) : StatusResponse :=
  { initialized := st.agent.isSome
    step_count := match st.agent with
      | some a => a.step_count
      | none => 0 }

/-- Handler of `POST /api/reset` (`reset_agent` in `main.py`): calls
`agent.reset()` when an agent exists, otherwise does nothing; always
returns `{"success": True, "message": "Agent reset"}`. -/
def reset_agent (st : ServerState) : ServerState × SuccessMessage :=
  match st.agent with
  | some a => (⟨some (a.reset)⟩, ⟨true, "Agent reset"⟩)
  | none => (st, ⟨true, "Agent reset"⟩)

/-- One API command, for reasoning about whole request sequences. -/
inductive Command where
  | init (req : InitRequest)
  | task (req : ChatRequest)
  | status
  | resetCmd
deriving Repr, DecidableEq

/-- State transition of a single command (the response is discarded). -/
def stepCommand (mk : MkOracle) (run : RunOracle) (st : ServerState) :
    Command → ServerState
  | .init req => (init_agent mk st req).1
  | .task req => (chat run st req).1
  | .status => st
  | .resetCmd => (reset_agent st).1

/-- State after a sequence of commands, starting from `st`. -/
def execCommands (mk : MkOracle) (run : RunOracle) (st : ServerState)
    (cmds : List Command) : ServerState :=
  cmds.foldl (stepCommand mk run) st

/-- Number of live Agent instances held by the registry. -/
def agentCount (st : ServerState) : Nat :=
  match st.agent with
  | some _ => 1
  | none => 0

/-! Concrete fixtures used by witnesses and counterexamples. -/

/-- A concrete model configuration (the source's defaults). -/
def mcW : ModelConfig := ⟨"http://localhost:8080/v1", "autoglm-phone-9b"⟩

/-- A concrete agent configuration (the source's defaults). -/
def acW : AgentConfig := ⟨100, none, true⟩

/-- A concrete freshly constructed agent. -/
def agentW : PhoneAgent := ⟨mcW, acW, 0⟩

/-- A run behaviour that advances three steps and then raises. -/
def runFailW : RunOracle :=
  fun a _ => ({ a with step_count := a.step_count + 3 }, Except.error "boom")

/-- A run behaviour that succeeds after five internal steps. -/
def runOkW : RunOracle :=
  fun a _ => ({ a with step_count := 5 }, Except.ok "done")

/-- A constructor behaviour that always succeeds, recording its configs. -/
def mkOkW : MkOracle := fun mc ac => Except.ok ⟨mc, ac, 0⟩

/-- A constructor behaviour that always raises. -/
def mkFailW : MkOracle := fun _ _ => Except.error "bad config"

/-- C1: on a populated session, when `Agent.run` raises, `/api/chat`
returns the structured outcome `(str(e), 0, False)` instead of
propagating an error, and the reported step count is 0 whatever the
agent's actual counter. -/
theorem chat_run_failure_downgraded (run : RunOracle) (st : ServerState)
    (req : ChatRequest) (a : PhoneAgent) (e : String)
    (hs : st.agent = some a)
    (he : (run a req.message).2 = Except.error e) :
    (chat run st req).2 = Except.ok ⟨e, 0, false⟩ := by
  obtain ⟨oag⟩ := st
  simp only at hs
  subst hs
  rcases hr : run a req.message with ⟨a2, r⟩
  rw [hr] at he
  simp only at he
  subst he
  simp [chat, hr]

/-- Witness for C1 at the concrete failing run behaviour. -/
theorem chat_run_failure_downgraded_witness :
    (⟨some agentW⟩ : ServerState).agent = some agentW ∧
    (runFailW agentW "open settings").2 = Except.error "boom" ∧
    (chat runFailW ⟨some agentW⟩ ⟨"open settings"⟩).2 =
      Except.ok ⟨"boom", 0, false⟩ :=
  ⟨rfl, rfl,
    chat_run_failure_downgraded runFailW ⟨some agentW⟩ ⟨"open settings"⟩
      agentW "boom" rfl rfl⟩

/-- C3: on a populated session, when `Agent.run` succeeds and the agent's
post-run counter is `n`, `/api/chat` answers `(result, n, True)` (the
count is read after the run, before the reset), and a status query right
after reports a step count of 0. -/
theorem chat_success_steps_then_reset (run : RunOracle) (st : ServerState)
    (req : ChatRequest) (a a2 : PhoneAgent) (result : String)
    (hs : st.agent = some a)
    (hr : run a req.message = (a2, Except.ok result)) :
    (chat run st req).2 = Except.ok ⟨result, a2.step_count, true⟩ ∧
    get_status (chat run st req).1 = ⟨true, 0⟩ := by
  obtain ⟨oag⟩ := st
  simp only at hs
  subst hs
  constructor
  · simp [chat, hr]
  · simp [chat, hr, get_status, PhoneAgent.reset]

/-- Witness for C3: the concrete agent succeeds after five steps. -/
theorem chat_success_steps_then_reset_witness :
    (⟨some agentW⟩ : ServerState).agent = some agentW ∧
    runOkW agentW "go to settings" =
      ({ agentW with step_count := 5 }, Except.ok "done") ∧
    (chat runOkW ⟨some agentW⟩ ⟨"go to settings"⟩).2 =
      Except.ok ⟨"done", 5, true⟩ ∧
    get_status (chat runOkW ⟨some agentW⟩ ⟨"go to settings"⟩).1 = ⟨true, 0⟩ :=
  ⟨rfl, rfl,
    (chat_success_steps_then_reset runOkW ⟨some agentW⟩ ⟨"go to settings"⟩
      agentW { agentW with step_count := 5 } "done" rfl rfl).1,
    (chat_success_steps_then_reset runOkW ⟨some agentW⟩ ⟨"go to settings"⟩
      agentW { agentW with step_count := 5 } "done" rfl rfl).2⟩

/-- C4: `/api/chat` with an empty registry raises
`HTTPException(400, ...)` (a client error), leaves the registry empty,
and never invokes the run behaviour: the outcome is the same for every
run behaviour. -/
theorem chat_not_initialized (run : RunOracle) (st : ServerState)
    (req : ChatRequest) (hs : st.agent = none) :
    chat run st req =
      (st, Except.error ⟨400, "Agent not initialized. Call /api/init first."⟩) ∧
    (chat run st req).1.agent = none ∧
    (∀ run2 : RunOracle, chat run2 st req = chat run st req) := by
  obtain ⟨oag⟩ := st
  simp only at hs
  subst hs
  refine ⟨rfl, rfl, fun run2 => rfl⟩

/-- Witness for C4 at the initial (uninitialized) state. -/
theorem chat_not_initialized_witness :
    initialState.agent = none ∧
    chat runOkW initialState ⟨"go to settings"⟩ =
      (initialState,
        Except.error ⟨400, "Agent not initialized. Call /api/init first."⟩) :=
  ⟨rfl,
    (chat_not_initialized runOkW initialState ⟨"go to settings"⟩ rfl).1⟩

/-- C2 counterexample: with the run behaviour that advances three steps
and then raises, `/api/chat` on a populated session leaves the agent's
step counter at 3 — the counters are not reset on the failure path, so a
completed run does not always end with reset counters. -/
theorem chat_failure_no_reset_cex :
    (chat runFailW ⟨some agentW⟩ ⟨"open settings"⟩).1.agent =
      some { agentW with step_count := 3 } ∧
    ({ agentW with step_count := 3 } : PhoneAgent).step_count ≠ 0 := by
  constructor
  · rfl
  · simp [agentW]

/-- C2 amended: the reset happens exactly when `Agent.run` succeeds: on
success the registry holds the run-mutated agent with its counters
cleared, while on failure it holds the agent exactly as the failed run
left it, counters included. -/
theorem chat_reset_on_success_only (run : RunOracle) (st : ServerState)
    (req : ChatRequest) (a : PhoneAgent) (hs : st.agent = some a) :
    (∀ a2 result, run a req.message = (a2, Except.ok result) →
      (chat run st req).1.agent = some (a2.reset)) ∧
    (∀ a2 e, run a req.message = (a2, Except.error e) →
      (chat run st req).1.agent = some a2) := by
  obtain ⟨oag⟩ := st
  simp only at hs
  subst hs
  constructor
  · intro a2 result hr
    simp [chat, hr]
  · intro a2 e hr
    simp [chat, hr]

/-- Witness for the amended C2: both branches at concrete behaviours. -/
theorem chat_reset_on_success_only_witness :
    (chat runOkW ⟨some agentW⟩ ⟨"t"⟩).1.agent =
      some (({ agentW with step_count := 5 } : PhoneAgent).reset) ∧
    (chat runFailW ⟨some agentW⟩ ⟨"t"⟩).1.agent =
      some { agentW with step_count := 3 } :=
  ⟨(chat_reset_on_success_only runOkW ⟨some agentW⟩ ⟨"t"⟩ agentW rfl).1
      { agentW with step_count := 5 } "done" rfl,
    (chat_reset_on_success_only runFailW ⟨some agentW⟩ ⟨"t"⟩ agentW rfl).2
      { agentW with step_count := 3 } "boom" rfl⟩

/-- C5: `/api/init` builds the configs and constructs the agent; if the
constructor raises, the exception propagates and the registry slot is
untouched (the old session survives); if it returns, the new agent
replaces any prior one and the command reports success. -/
theorem init_agent_replace_or_propagate (mk : MkOracle) (st : ServerState)
    (req : InitRequest) :
    (∀ e, mk (initModelConfig req) (initAgentConfig req) = Except.error e →
      init_agent mk st req = (st, Except.error e)) ∧
    (∀ a, mk (initModelConfig req) (initAgentConfig req) = Except.ok a →
      init_agent mk st req = (⟨some a⟩, Except.ok ⟨true, "Agent initialized"⟩)) := by
  constructor
  · intro e hmk
    simp [init_agent, hmk]
  · intro a hmk
    simp [init_agent, hmk]

/-- Witness for C5: a failing construction leaves the populated registry
as it was, and a succeeding one replaces it. -/
theorem init_agent_replace_or_propagate_witness :
    init_agent mkFailW ⟨some agentW⟩ {} =
      (⟨some agentW⟩, Except.error "bad config") ∧
    init_agent mkOkW ⟨some agentW⟩ {} =
      (⟨some ⟨initModelConfig {}, initAgentConfig {}, 0⟩⟩,
        Except.ok ⟨true, "Agent initialized"⟩) :=
  ⟨(init_agent_replace_or_propagate mkFailW ⟨some agentW⟩ {}).1
      "bad config" rfl,
    (init_agent_replace_or_propagate mkOkW ⟨some agentW⟩ {}).2
      ⟨initModelConfig {}, initAgentConfig {}, 0⟩ rfl⟩

/-- C6: `/api/status` is total (never raises): on an empty registry it
answers `(False, 0)` — in particular at process start — and on a
populated one it answers `(True, agent.step_count)`. -/
theorem get_status_total_snapshot (st : ServerState) :
    (st.agent = none → get_status st = ⟨false, 0⟩) ∧
    (∀ a, st.agent = some a → get_status st = ⟨true, a.step_count⟩) ∧
    get_status initialState = ⟨false, 0⟩ := by
  obtain ⟨oag⟩ := st
  refine ⟨?_, ?_, rfl⟩
  · intro h
    simp only at h
    subst h
    rfl
  · intro a h
    simp only at h
    subst h
    rfl

/-- Witness for C6 at the initial state and at a populated state. -/
theorem get_status_total_snapshot_witness :
    get_status initialState = ⟨false, 0⟩ ∧
    get_status ⟨some { agentW with step_count := 7 }⟩ = ⟨true, 7⟩ :=
  ⟨(get_status_total_snapshot initialState).1 rfl,
    (get_status_total_snapshot ⟨some { agentW with step_count := 7 }⟩).2.1
      { agentW with step_count := 7 } rfl⟩

/-- C7: `/api/reset` is total and always answers success: on a populated
registry it keeps the slot populated with the same agent (configuration
preserved) with its counter cleared; on an empty registry it changes
nothing and repeating it gives the same answer (idempotent). -/
theorem reset_agent_total_success (st : ServerState) :
    (reset_agent st).2 = ⟨true, "Agent reset"⟩ ∧
    (st.agent = none →
      (reset_agent st).1 = st ∧
      reset_agent (reset_agent st).1 = reset_agent st) ∧
    (∀ a, st.agent = some a →
      (reset_agent st).1 = ⟨some { a with step_count := 0 }⟩) := by
  obtain ⟨oag⟩ := st
  refine ⟨?_, ?_, ?_⟩
  · cases oag <;> rfl
  · intro h
    simp only at h
    subst h
    exact ⟨rfl, rfl⟩
  · intro a h
    simp only at h
    subst h
    rfl

/-- Witness for C7 at the empty and at a populated registry. -/
theorem reset_agent_total_success_witness :
    (reset_agent initialState).2 = ⟨true, "Agent reset"⟩ ∧
    (reset_agent initialState).1 = initialState ∧
    (reset_agent ⟨some { agentW with step_count := 9 }⟩).1 =
      ⟨some { agentW with step_count := 0 }⟩ :=
  ⟨(reset_agent_total_success initialState).1,
    ((reset_agent_total_success initialState).2.1 rfl).1,
    (reset_agent_total_success ⟨some { agentW with step_count := 9 }⟩).2.2
      { agentW with step_count := 9 } rfl⟩

/-- A state in which any installed agent was configured verbose. -/
def verboseOk (st : ServerState) : Prop :=
  ∀ a, st.agent = some a → a.agent_config.verbose = true

/-- One command preserves `verboseOk`, when the constructor honours the
given `AgentConfig` and `run` never changes the agent's configuration
(both immutability facts are part of the Agent contract). -/
theorem stepCommand_preserves_verboseOk (mk : MkOracle) (run : RunOracle)
    (hmk : ∀ mc ac a, mk mc ac = Except.ok a → a.agent_config = ac)
    (hrun : ∀ a m, ((run a m).1).agent_config = a.agent_config)
    (st : ServerState) (c : Command) (h : verboseOk st) :
    verboseOk (stepCommand mk run st c) := by
  cases c with
  | init req =>
      rcases hc : mk (initModelConfig req) (initAgentConfig req) with e | b
      · intro a ha
        rw [stepCommand, init_agent, hc] at ha
        exact h a ha
      · intro a ha
        rw [stepCommand, init_agent, hc] at ha
        simp only [Option.some.injEq] at ha
        subst ha
        rw [hmk _ _ _ hc]
        rfl
  | task req =>
      obtain ⟨oag⟩ := st
      cases oag with
      | none => exact h
      | some a0 =>
          have hv : a0.agent_config.verbose = true := h a0 rfl
          intro a ha
          rw [stepCommand, chat] at ha
          dsimp only at ha
          rcases hr : run a0 req.message with ⟨a2, r⟩
          have hcfg : a2.agent_config = a0.agent_config := by
            have hx := hrun a0 req.message
            rw [hr] at hx
            exact hx
          rw [hr] at ha
          cases r with
          | ok result =>
              dsimp only at ha
              simp only [Option.some.injEq] at ha
              subst ha
              rw [show (PhoneAgent.reset a2).agent_config
                    = a2.agent_config from rfl, hcfg]
              exact hv
          | error e =>
              dsimp only at ha
              simp only [Option.some.injEq] at ha
              subst ha
              rw [hcfg]
              exact hv
  | status => exact h
  | resetCmd =>
      obtain ⟨oag⟩ := st
      cases oag with
      | none => exact h
      | some a0 =>
          intro a ha
          rw [stepCommand, reset_agent] at ha
          simp only [Option.some.injEq] at ha
          subst ha
          exact h a0 rfl

/-- A command sequence preserves `verboseOk`. -/
theorem execCommands_preserves_verboseOk (mk : MkOracle) (run : RunOracle)
    (hmk : ∀ mc ac a, mk mc ac = Except.ok a → a.agent_config = ac)
    (hrun : ∀ a m, ((run a m).1).agent_config = a.agent_config)
    (cmds : List Command) (st : ServerState) (h : verboseOk st) :
    verboseOk (execCommands mk run st cmds) := by
  induction cmds generalizing st with
  | nil => exact h
  | cons c cs ih =>
      exact ih (stepCommand mk run st c)
        (stepCommand_preserves_verboseOk mk run hmk hrun st c h)

/-- C8: along every command sequence from process start the registry
holds at most one agent, and a later successful `/api/init` replaces the
slot wholesale with the new agent — afterwards a status query reads the
new agent's counter, whatever session was installed before. -/
theorem single_agent_and_replacement (mk : MkOracle) (run : RunOracle) :
    (∀ cmds : List Command,
      agentCount (execCommands mk run initialState cmds) ≤ 1) ∧
    (∀ (st : ServerState) (req : InitRequest) (b : PhoneAgent),
      mk (initModelConfig req) (initAgentConfig req) = Except.ok b →
      (init_agent mk st req).1 = ⟨some b⟩ ∧
      get_status (init_agent mk st req).1 = ⟨true, b.step_count⟩) := by
  constructor
  · intro cmds
    rcases h : (execCommands mk run initialState cmds).agent with _ | a <;>
      simp [agentCount, h]
  · intro st req b hmk
    constructor
    · simp [init_agent, hmk]
    · simp [init_agent, hmk, get_status]

/-- Witness for C8: one command, and a replacement over a populated
registry with the always-succeeding constructor. -/
theorem single_agent_and_replacement_witness :
    agentCount (execCommands mkOkW runOkW initialState [Command.init {}]) ≤ 1 ∧
    (init_agent mkOkW ⟨some agentW⟩ {}).1 =
      ⟨some ⟨initModelConfig {}, initAgentConfig {}, 0⟩⟩ :=
  ⟨(single_agent_and_replacement mkOkW runOkW).1 [Command.init {}],
    ((single_agent_and_replacement mkOkW runOkW).2 ⟨some agentW⟩ {}
      ⟨initModelConfig {}, initAgentConfig {}, 0⟩ rfl).1⟩

/-- C9: every `/api/init` fixes `verbose := True` in the constructed
`AgentConfig` — the request body has no field for it — so, as long as the
constructor honours its `AgentConfig` and `run` leaves the configuration
alone, no command sequence can install an agent with `verbose = false`. -/
theorem init_verbose_fixed (mk : MkOracle) (run : RunOracle)
    (hmk : ∀ mc ac a, mk mc ac = Except.ok a → a.agent_config = ac)
    (hrun : ∀ a m, ((run a m).1).agent_config = a.agent_config) :
    (∀ req : InitRequest, (initAgentConfig req).verbose = true) ∧
    (∀ (cmds : List Command) (a : PhoneAgent),
      (execCommands mk run initialState cmds).agent = some a →
      a.agent_config.verbose = true) := by
  constructor
  · intro req
    rfl
  · intro cmds a ha
    exact execCommands_preserves_verboseOk mk run hmk hrun cmds initialState
      (fun a0 h0 => by cases h0) a ha

/-- Witness for C9 at the concrete honest behaviours and a two-command
sequence. -/
theorem init_verbose_fixed_witness :
    (initAgentConfig {}).verbose = true ∧
    (execCommands mkOkW runOkW initialState
        [Command.init {}, Command.task ⟨"t"⟩]).agent =
      some ⟨initModelConfig {}, initAgentConfig {}, 0⟩ ∧
    (⟨initModelConfig {}, initAgentConfig {}, 0⟩ :
        PhoneAgent).agent_config.verbose = true :=
  ⟨(init_verbose_fixed mkOkW runOkW
      (fun mc ac a h => by
        simp only [mkOkW, Except.ok.injEq] at h
        subst h
        rfl)
      (fun a m => rfl)).1 {},
    rfl,
    (init_verbose_fixed mkOkW runOkW
      (fun mc ac a h => by
        simp only [mkOkW, Except.ok.injEq] at h
        subst h
        rfl)
      (fun a m => rfl)).2
      [Command.init {}, Command.task ⟨"t"⟩]
      ⟨initModelConfig {}, initAgentConfig {}, 0⟩ rfl⟩

/-- C10: all four `/api/init` body fields are optional with the source's
defaults, so an empty body decodes to the default request, whose configs
are exactly the default endpoint, model name, no device and a step budget
of 100; a succeeding construction then reports success.  A nonpositive
`max_steps` is passed through unchecked and the command still succeeds. -/
theorem init_request_defaults (mk : MkOracle) :
    InitRequest.fromBody none none none none = ({} : InitRequest) ∧
    ({} : InitRequest) =
      ⟨"http://localhost:8080/v1", "autoglm-phone-9b", none, 100⟩ ∧
    initModelConfig {} = ⟨"http://localhost:8080/v1", "autoglm-phone-9b"⟩ ∧
    initAgentConfig {} = ⟨100, none, true⟩ ∧
    (∀ (st : ServerState) (a : PhoneAgent),
      mk (initModelConfig {}) (initAgentConfig {}) = Except.ok a →
      init_agent mk st {} =
        (⟨some a⟩, Except.ok ⟨true, "Agent initialized"⟩)) ∧
    initAgentConfig { max_steps := -5 } = ⟨-5, none, true⟩ ∧
    (∀ (st : ServerState) (a : PhoneAgent),
      mk (initModelConfig { max_steps := -5 })
          (initAgentConfig { max_steps := -5 }) = Except.ok a →
      (init_agent mk st { max_steps := -5 }).2 =
        Except.ok ⟨true, "Agent initialized"⟩) := by
  refine ⟨rfl, rfl, rfl, rfl, ?_, rfl, ?_⟩
  · intro st a hmk
    simp [init_agent, hmk]
  · intro st a hmk
    simp [init_agent, hmk]

/-- Witness for C10 with the always-succeeding constructor. -/
theorem init_request_defaults_witness :
    InitRequest.fromBody none none none none = ({} : InitRequest) ∧
    init_agent mkOkW initialState {} =
      (⟨some ⟨initModelConfig {}, initAgentConfig {}, 0⟩⟩,
        Except.ok ⟨true, "Agent initialized"⟩) ∧
    (init_agent mkOkW initialState { max_steps := -5 }).2 =
      Except.ok ⟨true, "Agent initialized"⟩ :=
  ⟨(init_request_defaults mkOkW).1,
    (init_request_defaults mkOkW).2.2.2.2.1 initialState
      ⟨initModelConfig {}, initAgentConfig {}, 0⟩ rfl,
    (init_request_defaults mkOkW).2.2.2.2.2.2 initialState
      ⟨initModelConfig { max_steps := -5 },
        initAgentConfig { max_steps := -5 }, 0⟩ rfl⟩

end AutoGLM
